import Mathlib

/-!
Shallow embedding of `src/amp.py` (MFLI Live Monitor, "Fixed v7"): a small
GUI that connects to a lock-in amplifier data server, configures one
demodulator, and repaints four numeric labels (X, Y, R, phi) on a timer.

Numeric sample values are modelled over `ℚ` (exact decimals); the two
float-library routines `math.sqrt` and `math.atan2` called in
`poll_and_update` are passed in as function parameters at the `ℚ` level,
and are additionally given their real-number semantics (`Real.sqrt`,
`atan2` below) for the analytic facts about the rectangular-to-polar
recomputation.  Fallible Python code (a `try`/`except` or an expression
that may raise) is modelled with `Option`/`Except`.
-/

namespace Amp

/-! ### Sample payloads and field extraction -/

/-- Shapes a demod sample payload (or a value inside it) can take:
a bare float, a list/tuple batch of floats, or a (possibly nested)
string-keyed mapping.  `float(v)` succeeds exactly on `num`. -/
inductive PyVal where
  | num (q : ℚ)
  | batch (qs : List ℚ)
  | dict (entries : List (String × PyVal))

/-- Embeds `safe_extract` (amp.py lines 322-326): a non-empty list/tuple
yields `float(value[0])`; anything else goes through `float(value)`,
which raises (`none`) on an empty list or a mapping. -/
def safe_extract : PyVal → Option ℚ
  | .num q => some q
  | .batch (q :: _) => some q
  | .batch [] => none
  | .dict _ => none

/-- One `if k in d: cur = safe_extract(d[k])` step of `poll_and_update`:
an absent key leaves the current value, a present key is converted
(conversion failure raises). -/
def extractField (d : List (String × PyVal)) (k : String) (cur : ℚ) : Option ℚ :=
  match List.lookup k d with
  | none => some cur
  | some v => safe_extract v

/-- Embeds the phase step of `poll_and_update` (lines 336-339 and 351-354):
`if 'theta' in d: ... elif 'phi' in d: ...`. -/
def extractPhase (d : List (String × PyVal)) (cur : ℚ) : Option ℚ :=
  match List.lookup "theta" d with
  | some v => safe_extract v
  | none =>
    match List.lookup "phi" d with
    | some v => safe_extract v
    | none => some cur

/-- Embeds the extraction block of `poll_and_update` (lines 317-354):
direct keys `x`, `y`, `r`, `theta`/`phi` are read first; then, whenever a
`value` key holds a mapping, the same keys are read from it (overwriting
the direct results); a non-mapping sample leaves all fields at `0.0`.
`none` models an exception escaping the block. -/
def extractFields (sample : PyVal) : Option (ℚ × ℚ × ℚ × ℚ) :=
  match sample with
  | .dict d => do
    let x ← extractField d "x" 0
    let y ← extractField d "y" 0
    let r ← extractField d "r" 0
    let phi ← extractPhase d 0
    match List.lookup "value" d with
    | some (.dict v) => do
      let x ← extractField v "x" x
      let y ← extractField v "y" y
      let r ← extractField v "r" r
      let phi ← extractPhase v phi
      pure (x, y, r, phi)
    | _ => pure (x, y, r, phi)
  | _ => some (0, 0, 0, 0)

/-- Embeds lines 356-360 of `poll_and_update` over `ℚ`, with the float
routines `math.sqrt` and `math.atan2` abstracted as `fsqrt`/`fatan2`:
`if (x != 0.0 or y != 0.0) and r == 0.0: r = sqrt(x*x+y*y); phi = atan2(y, x)`. -/
def recompute_xyrphi (fsqrt : ℚ → ℚ) (fatan2 : ℚ → ℚ → ℚ)
    (x y r phi : ℚ) : ℚ × ℚ × ℚ × ℚ :=
  if (x ≠ 0 ∨ y ≠ 0) ∧ r = 0 then (x, y, fsqrt (x * x + y * y), fatan2 y x)
  else (x, y, r, phi)

/-- Real-number semantics of C's `atan2(y, x)` (what `math.atan2` computes,
up to floating-point rounding). -/
noncomputable def atan2 (y x : ℝ) : ℝ :=
  if 0 < x then Real.arctan (y / x)
  else if x < 0 then
    (if 0 ≤ y then Real.arctan (y / x) + Real.pi else Real.arctan (y / x) - Real.pi)
  else if 0 < y then Real.pi / 2
  else if y < 0 then -(Real.pi / 2)
  else 0

/-- Real-number semantics of lines 356-360 of `poll_and_update`: the same
guard as `recompute_xyrphi`, with `math.sqrt`/`math.atan2` given their
exact mathematical meaning. -/
noncomputable def recompute_real (x y r phi : ℝ) : ℝ × ℝ × ℝ × ℝ :=
  if (x ≠ 0 ∨ y ≠ 0) ∧ r = 0 then (x, y, Real.sqrt (x * x + y * y), atan2 y x)
  else (x, y, r, phi)

/-! ### Python number formatting

`poll_and_update` renders with the format specs `+.6e`, `.6e` and `+.3f`.
The formatters below give their exact-decimal semantics over `ℚ`
(Python rounds ties to even). -/

/-- Left-pads a digit string with zeros up to the given length. -/
def padZeros (s : String) (len : ℕ) : String :=
  if len ≤ s.length then s else String.mk (List.replicate (len - s.length) '0') ++ s

/-- Renders the exponent field of `%e`: a sign and at least two digits. -/
def expPart (e : ℤ) : String :=
  (if e < 0 then "-" else "+") ++ padZeros (Nat.repr e.natAbs) 2

/-- Rounds to the nearest integer, ties to even (Python/IEEE rounding). -/
def roundHalfEven (q : ℚ) : ℤ :=
  if q - ⌊q⌋ < 1 / 2 then ⌊q⌋
  else if 1 / 2 < q - ⌊q⌋ then ⌊q⌋ + 1
  else if ⌊q⌋ % 2 = 0 then ⌊q⌋ else ⌊q⌋ + 1

/-- Scientific-notation digits of a positive rational: the decimal exponent
and the `prec+1` mantissa digits (with carry when rounding overflows). -/
def sciDigits (prec : ℕ) (a : ℚ) : ℤ × ℕ :=
  let e := Int.log 10 a
  let n := roundHalfEven (a * (10 : ℚ) ^ ((prec : ℤ) - e))
  if n = 10 ^ (prec + 1) then (e + 1, 10 ^ prec) else (e, n.toNat)

/-- Puts the decimal point after the leading mantissa digit. -/
def insertDot (s : String) : String := s.take 1 ++ "." ++ s.drop 1

/-- Semantics of Python's `format(q, '+.{prec}e')` (`forceSign = true`)
and `format(q, '.{prec}e')` (`forceSign = false`) on exact decimals. -/
def pyFmtE (prec : ℕ) (forceSign : Bool) (q : ℚ) : String :=
  if q = 0 then
    (if forceSign then "+" else "")
      ++ insertDot (String.mk (List.replicate (prec + 1) '0')) ++ "e+00"
  else
    let sign := if q < 0 then "-" else if forceSign then "+" else ""
    let en := sciDigits prec |q|
    sign ++ insertDot (padZeros (Nat.repr en.2) (prec + 1)) ++ "e" ++ expPart en.1

/-- Semantics of Python's `format(q, '+.{prec}f')` on exact decimals. -/
def pyFmtF (prec : ℕ) (forceSign : Bool) (q : ℚ) : String :=
  let sign := if q < 0 then "-" else if forceSign then "+" else ""
  let n := (roundHalfEven (|q| * 10 ^ prec)).toNat
  let s := padZeros (Nat.repr n) (prec + 1)
  sign ++ s.dropRight prec ++ "." ++ s.takeRight prec

/-! ### Python string primitives and the in-use heuristic -/

/-- Checks whether `needle` occurs as a contiguous substring, at any
position of the remaining character list (Python's `needle in hay`). -/
def strContainsAux (needle : List Char) : List Char → Bool
  | [] => needle == []
  | c :: cs => needle.isPrefixOf (c :: cs) || strContainsAux needle cs

/-- Python's substring test `needle in hay` on strings. -/
def strContains (hay needle : String) : Bool :=
  strContainsAux needle.data hay.data

/-- Python's `str.lower()` (ASCII lowercasing suffices for the messages
involved). -/
def pyLower (s : String) : String :=
  String.mk (s.data.map Char.toLower)

/-- Python's `str.strip()`: removes leading and trailing whitespace. -/
def pyStrip (s : String) : String :=
  String.mk (((s.data.dropWhile Char.isWhitespace).reverse.dropWhile
    Char.isWhitespace).reverse)

/-- Python's `str.startswith(pre)`. -/
def pyStartswith (s pre : String) : Bool :=
  pre.data.isPrefixOf s.data

/-- Embeds `looks_like_in_use_error` (amp.py lines 29-31). -/
def looks_like_in_use_error (msg : String) : Bool :=
  let m := pyLower msg
  strContains m "in use" || strContains m "already connected"
    || strContains m "32789" || strContains m "different server"

/-! ### Configuration parsing (`apply_minimal_settings`) -/

/-- Embeds the `try: float(text) except ValueError: default` pattern of
`apply_minimal_settings` (lines 192-205); a field's text is modelled by
its Python `float(...)` parse result (`none` = `ValueError`). -/
def parse_with_default (parsed : Option ℚ) (default : ℚ) : ℚ :=
  match parsed with
  | some v => v
  | none => default

/-- Embeds the node writes of `apply_minimal_settings` (lines 207-211):
the frequency, time-constant, fixed order 4 and rate values written to
the device, in source order, after per-field fallback parsing. -/
def apply_minimal_settings (freqText tcText rateText : Option ℚ) :
    List (String × ℚ) :=
  let freq := parse_with_default freqText 1000
  let tc := parse_with_default tcText (1 / 100)
  let rate := parse_with_default rateText 200
  [("oscs/0/freq", freq), ("demods/0/timeconstant", tc),
   ("demods/0/order", 4), ("demods/0/rate", rate)]

/-! ### The GUI state machine -/

/-- Observable GUI state of `MFLILiveGUI`: session/device references, the
streaming flag, the timer, button enablement, the status line, the four
value labels, and the device selector. -/
structure AppState where
  sessionConnected : Bool
  deviceId : Option String
  streaming : Bool
  timerActive : Bool
  startEnabled : Bool
  stopEnabled : Bool
  status : String
  xLbl : String
  yLbl : String
  rLbl : String
  phiLbl : String
  comboItems : List String
  selected : String
deriving DecidableEq

/-- Externally visible actions, recorded in source order, used to state
ordering properties (timer stop before disconnect, no collaborator call
before a validation failure, ...). -/
inductive Ev where
  | timerStop
  | timerStart
  | connectDevice
  | applySettings
  | disconnectDevice
  | showError (title msg : String)
deriving DecidableEq

/-- Embeds `set_status` (line 129-130). -/
def set_status (st : AppState) (msg : String) : AppState :=
  { st with status := "Status: " ++ msg }

/-- State set up by `__init__` (lines 40-75). -/
def initState : AppState where
  sessionConnected := false
  deviceId := none
  streaming := false
  timerActive := false
  startEnabled := true
  stopEnabled := false
  status := "Status: Disconnected"
  xLbl := "X: —"
  yLbl := "Y: —"
  rLbl := "Amplitude (R): —"
  phiLbl := "Phase (phi): —"
  comboItems := []
  selected := ""

/-- The acquisition collaborator (`session.daq_server`): the two optional
read primitives (`none` models a missing attribute, i.e. an
`AttributeError` on access) and the generic node `get`, which returns a
path-keyed mapping. -/
structure DaqServer where
  getSample? : Option (String → PyVal)
  getAsEvent? : Option (String → PyVal)
  get : String → List (String × PyVal)

/-- Outcome of the read-method selection in `poll_and_update`. -/
inductive FetchResult where
  | sample (s : PyVal)
  | unsupported

/-- Embeds the read-method fallback of `poll_and_update` (lines 299-313):
`getSample` if present, else `getAsEvent` if present, else the node `get`
unwrapped through the path-keyed mapping (`if result and sample_path in
result`); `unsupported` models the status-and-return branch. -/
def fetchSample (srv : DaqServer) (path : String) : FetchResult :=
  match srv.getSample? with
  | some f => .sample (f path)
  | none =>
    match srv.getAsEvent? with
    | some f => .sample (f path)
    | none =>
      let result := srv.get path
      if result.isEmpty then .unsupported
      else
        match List.lookup path result with
        | some s => .sample s
        | none => .unsupported

/-- Embeds `refresh_devices` (lines 158-178); the enumeration outcome is
passed in (`Except` models `session.devices.visible()` raising). -/
def refresh_devices (st : AppState) (devsRes : Except String (List String)) :
    AppState × List Ev :=
  if st.sessionConnected = false then
    (st, [.showError "Not Connected" "Click Connect first."])
  else
    match devsRes with
    | .error _ => (st, [.showError "Device Query Failed" "Could not query visible devices."])
    | .ok devs =>
      if devs.isEmpty then
        (set_status { st with comboItems := ["(none found)"] }
          "Connected, but no devices visible.", [])
      else
        (set_status { st with comboItems := devs }
          ("Connected. Found " ++ Nat.repr devs.length
            ++ " device(s). Select one, then Start Live."), [])

/-- Embeds `stop_live` (lines 267-288): the timer is stopped first, then a
best-effort `disconnect_device` whose exception (`disconnectRaises`) is
swallowed, then the flags, status and the four labels are reset. -/
def stop_live (st : AppState) (_disconnectRaises : Bool) : AppState × List Ev :=
  ({ st with
      timerActive := false
      streaming := false
      startEnabled := true
      stopEnabled := false
      status := "Status: Connected (stream stopped)"
      xLbl := "X: —"
      yLbl := "Y: —"
      rLbl := "Amplitude (R): —"
      phiLbl := "Phase (phi): —" },
    [Ev.timerStop] ++
      (if st.sessionConnected && st.deviceId.isSome then [Ev.disconnectDevice] else []))

/-- Embeds `start_live` (lines 219-265).  The outcomes of the two
collaborator calls — `session.connect_device` and the node writes inside
`apply_minimal_settings` — are passed in as `Except` values (`.error msg`
models the call raising with message `msg`). -/
def start_live (st : AppState) (connectRes applyRes : Except String Unit) :
    AppState × List Ev :=
  if st.sessionConnected = false then
    (st, [.showError "Not Connected" "Connect to the LabOne Data Server first."])
  else
    let device_id := pyStrip st.selected
    if device_id = "" ∨ pyStartswith device_id "(" then
      (st, [.showError "No Device" "No valid device selected."])
    else
      let stopped := if st.streaming then stop_live st false else (st, [])
      let st1 := { stopped.1 with deviceId := some device_id }
      let evs1 := stopped.2 ++ [Ev.connectDevice]
      let proceed :=
        match connectRes with
        | .ok _ => true
        | .error msg => looks_like_in_use_error msg
      if proceed then
        match applyRes with
        | .ok _ =>
          (set_status
            { st1 with
                streaming := true
                timerActive := true
                startEnabled := false
                stopEnabled := true }
            ("Reading from " ++ device_id ++ "/demods/0/sample"),
            evs1 ++ [Ev.applySettings, Ev.timerStart])
        | .error _ =>
          ({ st1 with deviceId := none },
            evs1 ++ [Ev.applySettings,
              Ev.showError "Start Failed" "Could not configure device."])
      else
        ({ st1 with deviceId := none },
          evs1 ++ [Ev.showError "Start Failed" "Could not connect device."])

/-- Embeds `poll_and_update` (lines 290-369) for one timer tick: the early
return when session or device is unset, the read-method fallback, the
field extraction (an escaping exception becomes a `Read error` status),
the conditional rectangular-to-polar recomputation, and the label
formatting.  `fsqrt`/`fatan2` are the float routines `math.sqrt` and
`math.atan2`. -/
def poll_and_update (srv : DaqServer) (fsqrt : ℚ → ℚ) (fatan2 : ℚ → ℚ → ℚ)
    (st : AppState) : AppState :=
  match st.sessionConnected, st.deviceId with
  | true, some did =>
    match fetchSample srv ("/" ++ did ++ "/demods/0/sample") with
    | .unsupported => set_status st "Could not read sample - unsupported API version"
    | .sample s =>
      match extractFields s with
      | none => set_status st "Read error"
      | some (x0, y0, r0, phi0) =>
        match recompute_xyrphi fsqrt fatan2 x0 y0 r0 phi0 with
        | (x, y, r, phi) =>
          { st with
              xLbl := "X: " ++ pyFmtE 6 true x
              yLbl := "Y: " ++ pyFmtE 6 true y
              rLbl := "Amplitude (R): " ++ pyFmtE 6 false r
              phiLbl := "Phase (phi): " ++ pyFmtF 3 true phi ++ " rad" }
  | _, _ => st

/-- Embeds `closeEvent` (lines 371-377): closing the window forces a stop
when currently streaming. -/
def closeEvent (st : AppState) (disconnectRaises : Bool) : AppState × List Ev :=
  if st.streaming then stop_live st disconnectRaises else (st, [])

/-! ### Stub collaborators and states for the end-to-end claims -/

/-- A ready-to-start state: connected, device `dev1` selected. -/
def stReady : AppState :=
  { initState with sessionConnected := true, selected := "dev1", comboItems := ["dev1"] }

/-- A collaborator offering none of the read methods and an empty node
tree: every read-method fallback fails. -/
def srvNone : DaqServer := ⟨none, none, fun _ => []⟩

/-- The stub sample of the end-to-end rendering scenario:
`{x: 0.001, y: 0.0, r: 0.001, phi: 0.0}`. -/
def c9Sample : PyVal :=
  PyVal.dict [("x", PyVal.num (1/1000)), ("y", PyVal.num 0),
    ("r", PyVal.num (1/1000)), ("phi", PyVal.num 0)]

/-- A stub collaborator returning `c9Sample` from `getSample` for the path
`/dev1/demods/0/sample`. -/
def srvStub : DaqServer :=
  ⟨some (fun p => if p = "/dev1/demods/0/sample" then c9Sample else PyVal.num 0),
   none, fun _ => []⟩

/-! ### Helper lemmas -/

lemma roundHalfEven_intCast (n : ℤ) : roundHalfEven (n : ℚ) = n := by
  unfold roundHalfEven
  rw [Int.floor_intCast]
  norm_num

lemma sciDigits_eval (prec : ℕ) (a : ℚ) (e : ℤ) (m : ℕ)
    (hlog : Int.log 10 a = e)
    (hm : a * (10 : ℚ) ^ ((prec : ℤ) - e) = (m : ℚ))
    (hne : (m : ℤ) ≠ 10 ^ (prec + 1)) :
    sciDigits prec a = (e, m) := by
  simp only [sciDigits]
  rw [hlog, hm, show ((m : ℚ)) = ((m : ℤ) : ℚ) by push_cast; ring,
    roundHalfEven_intCast, if_neg hne]
  simp

lemma log_milli : Int.log 10 ((1 : ℚ)/1000) = -3 := by
  have h : ((1 : ℚ)/1000) = ((10 : ℕ) : ℚ) ^ (-3 : ℤ) := by norm_num
  rw [h, Int.log_zpow (by norm_num)]

lemma pyFmtE_milli_signed : pyFmtE 6 true (1/1000) = "+1.000000e-03" := by
  have hs : sciDigits 6 |(1 : ℚ)/1000| = (-3, 1000000) := by
    rw [show |(1 : ℚ)/1000| = 1/1000 by norm_num]
    exact sciDigits_eval 6 _ (-3) 1000000 log_milli (by norm_num) (by norm_num)
  unfold pyFmtE
  rw [if_neg (by norm_num : ¬((1 : ℚ)/1000) = 0)]
  rw [hs]
  norm_num
  decide

lemma pyFmtE_milli_unsigned : pyFmtE 6 false (1/1000) = "1.000000e-03" := by
  have hs : sciDigits 6 |(1 : ℚ)/1000| = (-3, 1000000) := by
    rw [show |(1 : ℚ)/1000| = 1/1000 by norm_num]
    exact sciDigits_eval 6 _ (-3) 1000000 log_milli (by norm_num) (by norm_num)
  unfold pyFmtE
  rw [if_neg (by norm_num : ¬((1 : ℚ)/1000) = 0)]
  rw [hs]
  norm_num
  decide

lemma pyFmtE_zero_signed : pyFmtE 6 true 0 = "+0.000000e+00" := by
  unfold pyFmtE
  rw [if_pos rfl]
  decide

lemma pyFmtF_zero_signed : pyFmtF 3 true 0 = "+0.000" := by
  unfold pyFmtF
  rw [show |(0:ℚ)| * 10 ^ 3 = ((0 : ℤ) : ℚ) by norm_num, roundHalfEven_intCast]
  norm_num
  decide

/-- The action trace of `stop_live` is one of two concrete lists. -/
lemma stop_live_events (st : AppState) (b : Bool) :
    (stop_live st b).2 = [Ev.timerStop] ∨
    (stop_live st b).2 = [Ev.timerStop, Ev.disconnectDevice] := by
  unfold stop_live
  by_cases h : (st.sessionConnected && st.deviceId.isSome) = true <;> simp [h]

lemma stop_live_no_error (st : AppState) (b : Bool) (t m : String) :
    Ev.showError t m ∉ (stop_live st b).2 := by
  rcases stop_live_events st b with h | h <;> rw [h] <;> simp

lemma stop_live_no_apply (st : AppState) (b : Bool) :
    Ev.applySettings ∉ (stop_live st b).2 := by
  rcases stop_live_events st b with h | h <;> rw [h] <;> simp

lemma stop_live_no_timerStart (st : AppState) (b : Bool) :
    Ev.timerStart ∉ (stop_live st b).2 := by
  rcases stop_live_events st b with h | h <;> rw [h] <;> simp

lemma poll_and_update_unsupported (srv : DaqServer) (fs : ℚ → ℚ)
    (fa : ℚ → ℚ → ℚ) (st : AppState) (did : String)
    (hs : st.sessionConnected = true) (hd : st.deviceId = some did)
    (hf : fetchSample srv ("/" ++ did ++ "/demods/0/sample") = .unsupported) :
    poll_and_update srv fs fa st
      = set_status st "Could not read sample - unsupported API version" := by
  unfold poll_and_update
  rw [hs, hd]
  simp only [hf]

lemma poll_and_update_sample (srv : DaqServer) (fs : ℚ → ℚ)
    (fa : ℚ → ℚ → ℚ) (st : AppState) (did : String) (s : PyVal)
    (x y r phi : ℚ)
    (hs : st.sessionConnected = true) (hd : st.deviceId = some did)
    (hf : fetchSample srv ("/" ++ did ++ "/demods/0/sample") = .sample s)
    (he : extractFields s = some (x, y, r, phi)) :
    poll_and_update srv fs fa st =
      { st with
          xLbl := "X: " ++ pyFmtE 6 true (recompute_xyrphi fs fa x y r phi).1
          yLbl := "Y: " ++ pyFmtE 6 true (recompute_xyrphi fs fa x y r phi).2.1
          rLbl := "Amplitude (R): "
            ++ pyFmtE 6 false (recompute_xyrphi fs fa x y r phi).2.2.1
          phiLbl := "Phase (phi): "
            ++ pyFmtF 3 true (recompute_xyrphi fs fa x y r phi).2.2.2 ++ " rad" } := by
  unfold poll_and_update
  rw [hs, hd]
  simp only [hf, he]

/-- Mean-value bounds for `arctan (4/3)`: it lies strictly between 0.9 and
0.953 (the true value is about 0.9273). -/
lemma arctan_four_thirds_mem :
    9/10 < Real.arctan (4/3) ∧ Real.arctan (4/3) < 953/1000 := by
  obtain ⟨c, hc, hslope⟩ :=
    exists_hasDerivAt_eq_slope Real.arctan (fun x => 1/(1 + x^2))
      (by norm_num : (1:ℝ) < 4/3)
      Real.continuous_arctan.continuousOn
      (fun x _ => Real.hasDerivAt_arctan x)
  rw [Real.arctan_one] at hslope
  have hc1 : (1:ℝ) < c := hc.1
  have hc2 : c < 4/3 := hc.2
  have hp : (0:ℝ) < 1 + c^2 := by positivity
  have h2 : (2:ℝ) < 1 + c^2 := by nlinarith
  have h259 : 1 + c^2 < 25/9 := by nlinarith
  have hlo : (9:ℝ)/25 < 1/(1 + c^2) := by
    rw [lt_div_iff₀ hp]; nlinarith
  have hhi : 1/(1 + c^2) < 1/2 := by
    rw [div_lt_div_iff₀ hp (by norm_num : (0:ℝ) < 2)]; nlinarith
  have harct : Real.arctan (4/3) - Real.pi/4 = (1/(1 + c^2)) * (1/3) := by
    rw [eq_div_iff (by norm_num : (4:ℝ)/3 - 1 ≠ 0)] at hslope
    ring_nf at hslope ⊢
    linarith
  have hpi1 := Real.pi_gt_d6
  have hpi2 := Real.pi_lt_d6
  constructor <;> nlinarith

/-! ### The claims -/

/-- C1: whenever the extracted r is exactly 0 while x or y is nonzero, the
renderer recomputes r and phi analytically (`r = sqrt(x*x+y*y)`,
`phi = atan2(y, x)`) before display — stated both for the real-number
semantics of the float math and for the abstracted `ℚ`-level pipeline —
and in particular x = 3, y = 4 yields exactly r = 5 and
phi within 0.03 of 0.927 rad; when x and y are both 0 no recomputation
occurs. -/
theorem C1_rect_to_polar_recompute :
    (∀ x y r phi : ℝ, r = 0 → x ≠ 0 ∨ y ≠ 0 →
      recompute_real x y r phi = (x, y, Real.sqrt (x * x + y * y), atan2 y x)) ∧
    ((recompute_real 3 4 0 0).2.2.1 = 5 ∧
      |(recompute_real 3 4 0 0).2.2.2 - 927/1000| < 3/100) ∧
    (∀ r phi : ℝ, recompute_real 0 0 r phi = (0, 0, r, phi)) ∧
    (∀ fs fa (x y phi : ℚ), x ≠ 0 ∨ y ≠ 0 →
      recompute_xyrphi fs fa x y 0 phi = (x, y, fs (x * x + y * y), fa y x)) ∧
    (∀ fs fa (r phi : ℚ), recompute_xyrphi fs fa 0 0 r phi = (0, 0, r, phi)) := by
  have hatan : atan2 4 3 = Real.arctan (4/3) := by
    unfold atan2
    rw [if_pos (by norm_num : (0:ℝ) < 3)]
  have key : recompute_real 3 4 0 0 = (3, 4, Real.sqrt (3 * 3 + 4 * 4), atan2 4 3) := by
    unfold recompute_real
    rw [if_pos ⟨Or.inl (by norm_num), rfl⟩]
  refine ⟨fun x y r phi hr hxy => ?_, ⟨?_, ?_⟩, fun r phi => ?_,
    fun fs fa x y phi hxy => ?_, fun fs fa r phi => ?_⟩
  · unfold recompute_real
    rw [if_pos ⟨hxy, hr⟩]
  · rw [key]
    show Real.sqrt (3 * 3 + 4 * 4) = 5
    rw [show (3 * 3 + 4 * 4 : ℝ) = 5 ^ 2 by norm_num,
      Real.sqrt_sq (by norm_num : (0:ℝ) ≤ 5)]
  · rw [key]
    show |atan2 4 3 - 927/1000| < 3/100
    rw [hatan, abs_lt]
    constructor <;> linarith [arctan_four_thirds_mem.1, arctan_four_thirds_mem.2]
  · unfold recompute_real
    rw [if_neg (by simp)]
  · unfold recompute_xyrphi
    rw [if_pos ⟨hxy, rfl⟩]
  · unfold recompute_xyrphi
    rw [if_neg (by simp)]

/-- C1 witness. -/
theorem C1_rect_to_polar_recompute_witness :
    recompute_real 3 4 0 0 = (3, 4, Real.sqrt (3 * 3 + 4 * 4), atan2 4 3) ∧
    recompute_xyrphi (fun q => q) (fun _ _ => 0) 3 4 0 0
      = (3, 4, 3 * 3 + 4 * 4, 0) :=
  ⟨C1_rect_to_polar_recompute.1 3 4 0 0 rfl (Or.inl (by norm_num)),
   C1_rect_to_polar_recompute.2.2.2.1 (fun q => q) (fun _ _ => 0) 3 4 0
     (Or.inl (by norm_num))⟩

/-- C2: `poll_and_update` is claimed to consult the nested `value` mapping
only when direct field access does not resolve.  Evaluating the extraction
at the failing input `{x: 1, value: {x: 2}}` shows the nested mapping
overrides the already-resolved direct key: the extracted x is 2, not 1
(the code's own comment, "If direct keys didn't work, try 'value'
wrapper", documents the claimed precedence). -/
theorem C2_value_wrapper_overrides_resolved_direct_key :
    extractFields (PyVal.dict [("x", PyVal.num 1),
        ("value", PyVal.dict [("x", PyVal.num 2)])])
      = some (2, 0, 0, 0) ∧ (2 : ℚ) ≠ 1 :=
  ⟨rfl, by norm_num⟩

/-- C3 counterexample: in this program no subscribe/poll feed is
established at start — starting performs only device-connect,
configuration and timer start — and when every read method is
unavailable (a collaborator with neither `getSample` nor `getAsEvent`
and an empty node tree) the next tick merely sets an unsupported-API
status while the controller REMAINS in Streaming (`streaming = true`),
instead of transitioning back to Connected as claimed. -/
theorem C3_counterexample_stays_streaming :
    (start_live stReady (.ok ()) (.ok ())).2
        = [Ev.connectDevice, Ev.applySettings, Ev.timerStart] ∧
    (poll_and_update srvNone (fun q => q) (fun _ _ => 0)
        (start_live stReady (.ok ()) (.ok ())).1).streaming = true ∧
    (poll_and_update srvNone (fun q => q) (fun _ _ => 0)
        (start_live stReady (.ok ()) (.ok ())).1).status
      = "Status: Could not read sample - unsupported API version" :=
  ⟨rfl, rfl, rfl⟩

/-- C3 (amended): the read-method fallback lives in the per-tick renderer,
not in start: each tick uses `getSample` if present, else `getAsEvent` if
present, else the generic node `get` unwrapped through the path-keyed
mapping; and when every method fails the tick only sets the
unsupported-API status, leaving the streaming flag unchanged. -/
theorem C3_fetch_fallback_per_tick (srv : DaqServer) (path : String) :
    (∀ f, srv.getSample? = some f → fetchSample srv path = .sample (f path)) ∧
    (∀ g, srv.getSample? = none → srv.getAsEvent? = some g →
      fetchSample srv path = .sample (g path)) ∧
    (∀ s, srv.getSample? = none → srv.getAsEvent? = none →
      List.lookup path (srv.get path) = some s →
      fetchSample srv path = .sample s) ∧
    (srv.getSample? = none → srv.getAsEvent? = none →
      List.lookup path (srv.get path) = none →
      fetchSample srv path = .unsupported) ∧
    (∀ fs fa st did, st.sessionConnected = true → st.deviceId = some did →
      fetchSample srv ("/" ++ did ++ "/demods/0/sample") = .unsupported →
      poll_and_update srv fs fa st
        = set_status st "Could not read sample - unsupported API version" ∧
      (poll_and_update srv fs fa st).streaming = st.streaming) := by
  refine ⟨fun f h => ?_, fun g h1 h2 => ?_, fun s h1 h2 h3 => ?_,
    fun h1 h2 h3 => ?_, fun fs fa st did hs hd hf => ?_⟩
  · unfold fetchSample
    rw [h]
  · unfold fetchSample
    rw [h1, h2]
  · unfold fetchSample
    rw [h1, h2]
    cases hlist : srv.get path with
    | nil => rw [hlist] at h3; simp at h3
    | cons a l =>
      rw [hlist] at h3
      simp [h3]
  · unfold fetchSample
    rw [h1, h2]
    cases hlist : srv.get path with
    | nil => simp
    | cons a l =>
      rw [hlist] at h3
      simp [h3]
  · refine ⟨poll_and_update_unsupported srv fs fa st did hs hd hf, ?_⟩
    rw [poll_and_update_unsupported srv fs fa st did hs hd hf]
    rfl

/-- C3 amended-claim witness. -/
theorem C3_fetch_fallback_per_tick_witness :
    fetchSample ⟨some (fun _ => PyVal.num 5), none, fun _ => []⟩ "/p" = .sample (PyVal.num 5) ∧
    fetchSample ⟨none, some (fun _ => PyVal.num 7), fun _ => []⟩ "/p" = .sample (PyVal.num 7) ∧
    fetchSample srvNone "/p" = .unsupported ∧
    (poll_and_update srvNone (fun q => q) (fun _ _ => 0)
        { stReady with deviceId := some "dev1", streaming := true }).streaming = true :=
  ⟨(C3_fetch_fallback_per_tick _ "/p").1 _ rfl,
   (C3_fetch_fallback_per_tick _ "/p").2.1 _ rfl rfl,
   (C3_fetch_fallback_per_tick _ "/p").2.2.2.1 rfl rfl rfl,
   by
    rw [((C3_fetch_fallback_per_tick srvNone "/dev1/demods/0/sample").2.2.2.2
      (fun q => q) (fun _ _ => 0)
      { stReady with deviceId := some "dev1", streaming := true } "dev1" rfl rfl rfl).2]⟩

/-- C4 counterexample: for the batch `[1, 2]` (arrival order, so the most
recent value is the last, 2), `safe_extract` yields the first element 1,
not the most recent one. -/
theorem C4_counterexample_first_not_last :
    safe_extract (PyVal.batch [1, 2]) = some 1 ∧
    [(1 : ℚ), 2].getLast? = some 2 ∧ (1 : ℚ) ≠ 2 :=
  ⟨rfl, rfl, by norm_num⟩

/-- C4 (amended): whenever a sample field arrives as a non-empty batch,
exactly the first value of the batch is used, both by `safe_extract`
itself and by the per-field extraction step. -/
theorem C4_batch_uses_first_value (q : ℚ) (qs : List ℚ) :
    safe_extract (PyVal.batch (q :: qs)) = some q ∧
    (∀ d k cur, List.lookup k d = some (PyVal.batch (q :: qs)) →
      extractField d k cur = some q) := by
  refine ⟨rfl, fun d k cur h => ?_⟩
  unfold extractField
  rw [h]
  rfl

/-- C4 witness. -/
theorem C4_batch_uses_first_value_witness :
    extractField [("x", PyVal.batch [1, 2])] "x" 0 = some 1 :=
  (C4_batch_uses_first_value 1 [2]).2 _ "x" 0 rfl

/-- C5: each of the three numeric fields independently falls back to its
documented default (1000, 0.01, 200) when its text does not parse
(`none`), and a field whose text does parse (`some v`) is applied with
its typed value regardless of the other fields. -/
theorem C5_per_field_parse_fallback (f t r : Option ℚ) :
    (f = none → ("oscs/0/freq", (1000 : ℚ)) ∈ apply_minimal_settings f t r) ∧
    (t = none → ("demods/0/timeconstant", (1 / 100 : ℚ)) ∈ apply_minimal_settings f t r) ∧
    (r = none → ("demods/0/rate", (200 : ℚ)) ∈ apply_minimal_settings f t r) ∧
    (∀ v, f = some v → ("oscs/0/freq", v) ∈ apply_minimal_settings f t r) ∧
    (∀ v, t = some v → ("demods/0/timeconstant", v) ∈ apply_minimal_settings f t r) ∧
    (∀ v, r = some v → ("demods/0/rate", v) ∈ apply_minimal_settings f t r) := by
  refine ⟨fun h => ?_, fun h => ?_, fun h => ?_,
    fun v h => ?_, fun v h => ?_, fun v h => ?_⟩ <;>
    subst h <;> simp [apply_minimal_settings, parse_with_default]

/-- C5 witness: a malformed frequency field falls back to 1000 while the
two well-formed sibling fields are still applied with their typed
values. -/
theorem C5_per_field_parse_fallback_witness :
    ("oscs/0/freq", (1000 : ℚ)) ∈ apply_minimal_settings none (some (1/50)) (some 100) ∧
    ("demods/0/timeconstant", (1/50 : ℚ)) ∈ apply_minimal_settings none (some (1/50)) (some 100) ∧
    ("demods/0/rate", (100 : ℚ)) ∈ apply_minimal_settings none (some (1/50)) (some 100) :=
  ⟨(C5_per_field_parse_fallback none (some (1/50)) (some 100)).1 rfl,
   (C5_per_field_parse_fallback none (some (1/50)) (some 100)).2.2.2.2.1 _ rfl,
   (C5_per_field_parse_fallback none (some (1/50)) (some 100)).2.2.2.2.2 _ rfl⟩

/-- C6: during start, a device-connect failure whose message contains
(case-insensitively) one of "in use", "already connected", "32789" or
"different server" does not abort the start sequence — configuration is
applied, streaming is entered and no error dialog is shown — while a
failure matching none of them aborts: the error is surfaced, streaming is
false and neither configuration nor the timer start happens. -/
theorem C6_in_use_heuristic_gates_start (st : AppState) (msg : String)
    (hs : st.sessionConnected = true)
    (hdev : ¬(pyStrip st.selected = "" ∨ pyStartswith (pyStrip st.selected) "(" = true)) :
    ((strContains (pyLower msg) "in use" = true ∨
      strContains (pyLower msg) "already connected" = true ∨
      strContains (pyLower msg) "32789" = true ∨
      strContains (pyLower msg) "different server" = true) →
      (start_live st (.error msg) (.ok ())).1.streaming = true ∧
      (start_live st (.error msg) (.ok ())).1.timerActive = true ∧
      Ev.applySettings ∈ (start_live st (.error msg) (.ok ())).2 ∧
      ∀ t m, Ev.showError t m ∉ (start_live st (.error msg) (.ok ())).2) ∧
    ((strContains (pyLower msg) "in use" = false ∧
      strContains (pyLower msg) "already connected" = false ∧
      strContains (pyLower msg) "32789" = false ∧
      strContains (pyLower msg) "different server" = false) →
      ∀ ar, (start_live st (.error msg) ar).1.streaming = false ∧
        Ev.showError "Start Failed" "Could not connect device."
          ∈ (start_live st (.error msg) ar).2 ∧
        Ev.applySettings ∉ (start_live st (.error msg) ar).2 ∧
        Ev.timerStart ∉ (start_live st (.error msg) ar).2) := by
  constructor
  · intro h
    have hmatch : looks_like_in_use_error msg = true := by
      unfold looks_like_in_use_error
      rcases h with h | h | h | h <;> simp [h]
    refine ⟨?_, ?_, ?_, ?_⟩
    · simp only [start_live, hs]
      rw [if_neg (fun hh => Bool.noConfusion hh), if_neg hdev]
      simp only [hmatch]
      rw [if_pos trivial]
      rfl
    · simp only [start_live, hs]
      rw [if_neg (fun hh => Bool.noConfusion hh), if_neg hdev]
      simp only [hmatch]
      rw [if_pos trivial]
      rfl
    · simp only [start_live, hs]
      rw [if_neg (fun hh => Bool.noConfusion hh), if_neg hdev]
      simp only [hmatch]
      rw [if_pos trivial]
      simp
    · intro t m
      simp only [start_live, hs]
      rw [if_neg (fun hh => Bool.noConfusion hh), if_neg hdev]
      simp only [hmatch]
      rw [if_pos trivial]
      intro hmem
      rcases List.mem_append.1 hmem with h1 | h2
      · rcases List.mem_append.1 h1 with h3 | h4
        · by_cases hstr : st.streaming = true
          · rw [if_pos hstr] at h3
            exact stop_live_no_error st false t m h3
          · rw [if_neg hstr] at h3
            simp at h3
        · simp at h4
      · simp at h2
  · intro h ar
    have hmatch : looks_like_in_use_error msg = false := by
      unfold looks_like_in_use_error
      simp [h.1, h.2.1, h.2.2.1, h.2.2.2]
    refine ⟨?_, ?_, ?_, ?_⟩
    · simp only [start_live, hs]
      rw [if_neg (fun hh => Bool.noConfusion hh), if_neg hdev]
      simp only [hmatch]
      rw [if_neg (by simp)]
      by_cases hstr : st.streaming = true
      · simp only [if_pos hstr]
        rfl
      · simp only [if_neg hstr]
        simpa using Bool.eq_false_iff.2 (fun hh => hstr hh)
    · simp only [start_live, hs]
      rw [if_neg (fun hh => Bool.noConfusion hh), if_neg hdev]
      simp only [hmatch]
      rw [if_neg (by simp)]
      simp
    · simp only [start_live, hs]
      rw [if_neg (fun hh => Bool.noConfusion hh), if_neg hdev]
      simp only [hmatch]
      rw [if_neg (by simp)]
      intro hmem
      rcases List.mem_append.1 hmem with h1 | h2
      · rcases List.mem_append.1 h1 with h3 | h4
        · by_cases hstr : st.streaming = true
          · rw [if_pos hstr] at h3
            exact stop_live_no_apply st false h3
          · rw [if_neg hstr] at h3
            simp at h3
        · simp at h4
      · simp at h2
    · simp only [start_live, hs]
      rw [if_neg (fun hh => Bool.noConfusion hh), if_neg hdev]
      simp only [hmatch]
      rw [if_neg (by simp)]
      intro hmem
      rcases List.mem_append.1 hmem with h1 | h2
      · rcases List.mem_append.1 h1 with h3 | h4
        · by_cases hstr : st.streaming = true
          · rw [if_pos hstr] at h3
            exact stop_live_no_timerStart st false h3
          · rw [if_neg hstr] at h3
            simp at h3
        · simp at h4
      · simp at h2

/-- C6 witness. -/
theorem C6_in_use_heuristic_gates_start_witness :
    (start_live { initState with sessionConnected := true, selected := "dev1" }
        (.error "Device dev1 is already in use") (.ok ())).1.streaming = true ∧
    (start_live { initState with sessionConnected := true, selected := "dev1" }
        (.error "Connection refused") (.ok ())).1.streaming = false :=
  ⟨((C6_in_use_heuristic_gates_start _ _ rfl (by decide)).1
      (Or.inl (by decide))).1,
   ((C6_in_use_heuristic_gates_start _ _ rfl (by decide)).2
      ⟨by decide, by decide, by decide, by decide⟩ (.ok ())).1⟩

/-- C7: every stop — Stop button (`stop_live`) or window close
(`closeEvent` while streaming) — halts the render timer first (the first
recorded action is the timer stop, hence before any disconnect attempt),
swallows a disconnect exception (the result does not depend on whether
the best-effort disconnect raises), sets streaming to false, and clears
all four value labels to the unset placeholder. -/
theorem C7_stop_halts_timer_first_and_clears :
    (∀ st b, (stop_live st b).2.head? = some Ev.timerStop) ∧
    (∀ st b, stop_live st b = stop_live st false) ∧
    (∀ st b, (stop_live st b).1.timerActive = false ∧
      (stop_live st b).1.streaming = false ∧
      (stop_live st b).1.xLbl = "X: —" ∧ (stop_live st b).1.yLbl = "Y: —" ∧
      (stop_live st b).1.rLbl = "Amplitude (R): —" ∧
      (stop_live st b).1.phiLbl = "Phase (phi): —") ∧
    (∀ st b, st.streaming = true → closeEvent st b = stop_live st b) := by
  refine ⟨fun st b => rfl, fun st b => rfl,
    fun st b => ⟨rfl, rfl, rfl, rfl, rfl, rfl⟩, fun st b h => ?_⟩
  unfold closeEvent
  rw [h]
  rfl

/-- C7 witness. -/
theorem C7_stop_halts_timer_first_and_clears_witness :
    closeEvent { initState with streaming := true } true
      = stop_live { initState with streaming := true } true :=
  C7_stop_halts_timer_first_and_clears.2.2.2 { initState with streaming := true } true rfl

/-- C8: an empty device enumeration yields exactly the one placeholder
entry `"(none found)"`, and starting with the placeholder selected fails
with the `"No valid device selected."` error while performing no
collaborator action at all (the result is the unchanged state plus only
the error dialog, for every possible collaborator outcome). -/
theorem C8_placeholder_blocks_start (st : AppState)
    (hs : st.sessionConnected = true) :
    (refresh_devices st (.ok [])).1.comboItems = ["(none found)"] ∧
    (∀ cr ar, st.selected = "(none found)" →
      start_live st cr ar = (st, [Ev.showError "No Device" "No valid device selected."])) := by
  constructor
  · unfold refresh_devices
    rw [hs]
    rfl
  · intro cr ar hsel
    unfold start_live
    rw [hs, hsel]
    rfl

/-- C8 witness. -/
theorem C8_placeholder_blocks_start_witness :
    (refresh_devices { initState with sessionConnected := true } (.ok [])).1.comboItems
      = ["(none found)"] ∧
    start_live { initState with sessionConnected := true, selected := "(none found)" }
        (.ok ()) (.ok ())
      = ({ initState with sessionConnected := true, selected := "(none found)" },
         [Ev.showError "No Device" "No valid device selected."]) :=
  ⟨(C8_placeholder_blocks_start { initState with sessionConnected := true } rfl).1,
   (C8_placeholder_blocks_start
      { initState with sessionConnected := true, selected := "(none found)" } rfl).2
     (.ok ()) (.ok ()) rfl⟩

/-- C9 counterexample: in the end-to-end scenario (stub collaborator
returning `{x: 0.001, y: 0.0, r: 0.001, phi: 0.0}` for
`/dev1/demods/0/sample`, start plus one tick) the rendered phase label is
`Phase (phi): +0.000 rad` — its prefix is `Phase (phi): `, not the
claimed `phi: `. -/
theorem C9_counterexample_phi_label_prefix :
    (poll_and_update srvStub (fun q => q) (fun _ _ => 0)
        (start_live stReady (.ok ()) (.ok ())).1).phiLbl
      = "Phase (phi): +0.000 rad" ∧
    "Phase (phi): +0.000 rad" ≠ "phi: +0.000 rad" := by
  constructor
  · rw [poll_and_update_sample srvStub (fun q => q) (fun _ _ => 0)
      (start_live stReady (.ok ()) (.ok ())).1 "dev1" c9Sample
      (1/1000) 0 (1/1000) 0 rfl rfl rfl rfl]
    rw [show recompute_xyrphi (fun q => q) (fun _ _ => 0) (1/1000) 0 (1/1000) 0
        = (1/1000, 0, 1/1000, 0) from
      if_neg (by norm_num)]
    rw [pyFmtF_zero_signed]
    rfl
  · decide

/-- C9 (amended): in the end-to-end scenario — stub collaborator returning
`{x: 0.001, y: 0.0, r: 0.001, phi: 0.0}` for `/dev1/demods/0/sample`,
start plus one tick — X and Y render in signed scientific notation with 6
decimals, R in unsigned scientific notation with 6 decimals, and phi in
signed fixed-point with 3 decimals; the phi label's prefix is
`Phase (phi): ` (not `phi: `), so the labels read `X: +1.000000e-03`,
`Y: +0.000000e+00`, `Amplitude (R): 1.000000e-03` and
`Phase (phi): +0.000 rad`, independently of the float-math routines. -/
theorem C9_render_formats_end_to_end (fs : ℚ → ℚ) (fa : ℚ → ℚ → ℚ) :
    (poll_and_update srvStub fs fa (start_live stReady (.ok ()) (.ok ())).1).xLbl
      = "X: +1.000000e-03" ∧
    (poll_and_update srvStub fs fa (start_live stReady (.ok ()) (.ok ())).1).yLbl
      = "Y: +0.000000e+00" ∧
    (poll_and_update srvStub fs fa (start_live stReady (.ok ()) (.ok ())).1).rLbl
      = "Amplitude (R): 1.000000e-03" ∧
    (poll_and_update srvStub fs fa (start_live stReady (.ok ()) (.ok ())).1).phiLbl
      = "Phase (phi): +0.000 rad" := by
  have hpoll := poll_and_update_sample srvStub fs fa
    (start_live stReady (.ok ()) (.ok ())).1 "dev1" c9Sample
    (1/1000) 0 (1/1000) 0 rfl rfl rfl rfl
  have hrec : recompute_xyrphi fs fa (1/1000) 0 (1/1000) 0
      = (1/1000, 0, 1/1000, 0) := if_neg (by norm_num)
  rw [hpoll, hrec]
  refine ⟨?_, ?_, ?_, ?_⟩
  · show "X: " ++ pyFmtE 6 true (1/1000) = _
    rw [pyFmtE_milli_signed]
    rfl
  · show "Y: " ++ pyFmtE 6 true 0 = _
    rw [pyFmtE_zero_signed]
    rfl
  · show "Amplitude (R): " ++ pyFmtE 6 false (1/1000) = _
    rw [pyFmtE_milli_unsigned]
    rfl
  · show "Phase (phi): " ++ pyFmtF 3 true 0 ++ " rad" = _
    rw [pyFmtF_zero_signed]
    rfl

/-- C10 counterexample: the sample `{theta: 1, phi: 2, value: {phi: 3}}`
contains both `theta` and `phi` at the top level, yet the displayed phase
is 3, taken from the nested `phi`, not from `theta`. -/
theorem C10_counterexample_nested_phi_wins :
    extractFields (PyVal.dict [("theta", PyVal.num 1), ("phi", PyVal.num 2),
        ("value", PyVal.dict [("phi", PyVal.num 3)])])
      = some (0, 0, 0, 3) ∧ (3 : ℚ) ≠ 1 :=
  ⟨rfl, by norm_num⟩

/-- C10 (amended): within each level (top-level mapping or nested `value`
mapping) `theta` takes precedence and `phi` is consulted only when
`theta` is absent at that level; but a phase resolved in the nested
`value` mapping overrides the top level’s. -/
theorem C10_theta_precedence_per_level :
    (∀ d cur v, List.lookup "theta" d = some v → extractPhase d cur = safe_extract v) ∧
    (∀ d cur v, List.lookup "theta" d = none → List.lookup "phi" d = some v →
      extractPhase d cur = safe_extract v) ∧
    (∀ d a, List.lookup "theta" d = some (PyVal.num a) →
      (List.lookup "phi" d).isSome →
      List.lookup "x" d = none → List.lookup "y" d = none →
      List.lookup "r" d = none → List.lookup "value" d = none →
      extractFields (PyVal.dict d) = some (0, 0, 0, a)) ∧
    (∀ a b c : ℚ, extractFields (PyVal.dict [("theta", PyVal.num a), ("phi", PyVal.num b),
        ("value", PyVal.dict [("phi", PyVal.num c)])]) = some (0, 0, 0, c)) := by
  refine ⟨fun d cur v h => ?_, fun d cur v ht hp => ?_,
    fun d a ht _hp hx hy hr hv => ?_, fun a b c => rfl⟩
  · unfold extractPhase
    rw [h]
  · unfold extractPhase
    rw [ht, hp]
  · simp [extractFields, extractField, extractPhase, safe_extract, hx, hy, hr, ht, hv]

/-- C10 witness. -/
theorem C10_theta_precedence_per_level_witness :
    extractPhase [("theta", PyVal.num 5), ("phi", PyVal.num 7)] 0
      = safe_extract (PyVal.num 5) ∧
    extractFields (PyVal.dict [("theta", PyVal.num 5), ("phi", PyVal.num 7)])
      = some (0, 0, 0, 5) :=
  ⟨C10_theta_precedence_per_level.1 _ 0 _ rfl,
   C10_theta_precedence_per_level.2.2.1 _ 5 rfl rfl rfl rfl rfl rfl⟩

end Amp
